import Mathlib

/-!
Verification of the manga scraper orchestration engine.

This file gives a shallow embedding, in Lean, of the core components of the
scraper: the per-domain rate limiter (core/redis.py), the fetch strategy
engine (scrapers/base.py), the browser pool (scrapers/browser_pool.py), the
adapter registry (scrapers/init), and the job orchestrator tasks
(workers/tasks.py).  Machine state (the Redis counter, the SQLAlchemy
session, the pool's instance list) is made explicit; time is a Nat number of
seconds passed as a parameter.  Theorems at the end settle the testable
properties of the specification against these embeddings.
-/

namespace MangaScraper

/-! ## Rate limiter (core/redis.py, RedisClient.check_rate_limit)

The shared store holds, per key, an optional pair of the current counter
value and its absolute expiry time.  GET returns the value only while the
current time is strictly before the expiry (Redis TTL expiry); SETEX installs
a fresh value with expiry now + window. -/

/-- State of one rate-limit counter key in the shared store: absent, or a
pair of current count and absolute expiry time in seconds. -/
structure RLState where
  counter : Option (Nat × Nat)
deriving DecidableEq, Repr

/-- Embedding of RedisClient.check_rate_limit for one key:
GET key; if absent (never set, or TTL expired) SETEX key window 1 and allow;
if the value has reached the limit, deny without touching the key;
otherwise INCR (which keeps the existing expiry) and allow. -/
def check_rate_limit (s : RLState) (now limit window : Nat) : Bool × RLState :=
  match s.counter with
  | none => (true, ⟨some (1, now + window)⟩)
  | some (v, exp) =>
      if exp ≤ now then (true, ⟨some (1, now + window)⟩)
      else if limit ≤ v then (false, s)
      else (true, ⟨some (v + 1, exp)⟩)

/-- Run a sequence of check_rate_limit calls (window 60, as in the
scraper's rate_limit helper) at the given times, threading the store state,
collecting the returned booleans. -/
def runAllow (limit : Nat) : RLState → List Nat → List Bool × RLState
  | s, [] => ([], s)
  | s, t :: ts =>
      let r := check_rate_limit s t limit 60
      let rest := runAllow limit r.2 ts
      (r.1 :: rest.1, rest.2)

/-! ## Fetch strategy engine (scrapers/base.py)

Responses are modelled as status plus body text; the three tenacity attempts
of BaseScraper.fetch_http are indexed by attempt number.  The exceptions that
matter to control flow are reified. -/

/-- An HTTP response as seen by the fetch engine. -/
structure HttpResponse where
  status : Nat
  text : String
deriving DecidableEq, Repr

/-- The exceptions driving the fetch engine's control flow.  retryError is
tenacity's RetryError wrapper, raised by a retry-decorated function (with the
default reraise=False) once its stop condition is reached; it wraps the last
attempt's exception. -/
inductive FetchError where
  | cloudflareBlocked
  | httpStatusError (status : Nat)
  | retryError (last : FetchError)
deriving DecidableEq, Repr

/-- Lowercasing of a string as a character list (the ASCII fragment of the
Python str.lower used by the code; every compared literal is ASCII). -/
def lower_chars (s : String) : List Char := s.toList.map Char.toLower

/-- Does the second list start with the first one? -/
def starts_with : List Char → List Char → Bool
  | [], _ => true
  | _ :: _, [] => false
  | a :: as, b :: bs => if a = b then starts_with as bs else false

/-- Contiguous-subsequence containment, modelling the Python substring
operator on the character lists of the two strings. -/
def contains_seq (needle : List Char) : List Char → Bool
  | [] => needle.isEmpty
  | b :: bs => starts_with needle (b :: bs) || contains_seq needle bs

/-- The fixed challenge indicator list of BaseScraper.is_cloudflare_challenge. -/
def challenge_indicators : List String :=
  ["just a moment", "checking your browser", "cf-browser-verification",
   "challenge-platform", "cloudflare", "_cf_chl"]

/-- Embedding of BaseScraper.is_cloudflare_challenge: status 403 or 503 and
the lowercased body contains one of the fixed indicators. -/
def is_cloudflare_challenge (r : HttpResponse) : Bool :=
  if r.status = 403 ∨ r.status = 503 then
    challenge_indicators.any (fun ind => contains_seq ind.toList (lower_chars r.text))
  else false

/-- One attempt of BaseScraper.fetch_http: a challenge page raises
CloudflareBlockedError, raise_for_status raises HTTPStatusError on any
status of 400 or above, otherwise the body text is returned. -/
def fetch_http_attempt (r : HttpResponse) : Except FetchError String :=
  if is_cloudflare_challenge r then Except.error FetchError.cloudflareBlocked
  else if 400 ≤ r.status then Except.error (FetchError.httpStatusError r.status)
  else Except.ok r.text

/-- The tenacity wrapper on fetch_http: stop_after_attempt(3) with the
default reraise=False, so after a third failing attempt the controller
raises RetryError wrapping the last exception rather than that exception
itself.  resp gives the HTTP response seen by each attempt. -/
def fetch_http_with_retry (resp : Nat → HttpResponse) : Except FetchError String :=
  match fetch_http_attempt (resp 0) with
  | Except.ok t => Except.ok t
  | Except.error _ =>
    match fetch_http_attempt (resp 1) with
    | Except.ok t => Except.ok t
    | Except.error _ =>
      match fetch_http_attempt (resp 2) with
      | Except.ok t => Except.ok t
      | Except.error e => Except.error (FetchError.retryError e)

/-- Embedding of BaseScraper.fetch_page.  Returns the overall outcome and
the number of browser-pool fetches performed.  The except clause catches
only CloudflareBlockedError and HTTPStatusError, re-raising the latter when
the status is neither 403 nor 503; a RetryError from the tenacity wrapper is
not caught and propagates. -/
def fetch_page (resp : Nat → HttpResponse) (browserContent : String)
    (force_browser requires_browser : Bool) : Except FetchError String × Nat :=
  if force_browser || requires_browser then (Except.ok browserContent, 1)
  else
    match fetch_http_with_retry resp with
    | Except.ok t => (Except.ok t, 0)
    | Except.error FetchError.cloudflareBlocked => (Except.ok browserContent, 1)
    | Except.error (FetchError.httpStatusError st) =>
        if st = 403 ∨ st = 503 then (Except.ok browserContent, 1)
        else (Except.error (FetchError.httpStatusError st), 0)
    | Except.error (FetchError.retryError e) =>
        (Except.error (FetchError.retryError e), 0)

/-- A persistent 503 challenge response, body containing "just a moment". -/
def challenge503 : HttpResponse := { status := 503, text := "just a moment" }

/-! ## Job records and the failure path of scrape_series (workers/tasks.py)

The Job model (models/job.py) is reduced to the fields the orchestrator
mutates.  error_traceback is tracked as a flag (recorded or not). -/

/-- The JobStatus enumeration of models/job.py. -/
inductive JobSt where
  | pending | running | completed | failed | cancelled | retry
deriving DecidableEq, Repr

/-- The orchestrator-mutated slice of the Job row. -/
structure JobRecord where
  status : JobSt
  retry_count : Nat
  max_retries : Nat
  error_message : Option String
  error_traceback : Bool
  started_at : Option Nat
  completed_at : Option Nat
deriving DecidableEq, Repr

/-- A freshly created job: status pending, retry_count 0, max_retries 3
(the column defaults of models/job.py). -/
def newJob : JobRecord :=
  { status := JobSt.pending, retry_count := 0, max_retries := 3,
    error_message := none, error_traceback := false,
    started_at := none, completed_at := none }

/-- One failing execution of scrape_series on its attached job: the task
first marks the job running and stamps started_at, then the except handler
sets status to failed, records error_message and error_traceback, and
increments retry_count before committing and re-raising through
self.retry. -/
def failing_execution (j : JobRecord) (msg : String) (now : Nat) : JobRecord :=
  { j with status := JobSt.failed,
           started_at := some now,
           error_message := some msg,
           error_traceback := true,
           retry_count := j.retry_count + 1 }

/-- The Celery retry budget of the scrape_series task decorator
(max_retries=3). -/
def celery_max_retries : Nat := 3

/-- Celery's Task.retry re-enqueue decision: with the request at
requestRetries prior retries, retry re-enqueues when
requestRetries + 1 is at most max_retries, and otherwise re-raises the
original exception so the task fails permanently. -/
def celery_reenqueues (requestRetries : Nat) : Bool :=
  requestRetries + 1 ≤ celery_max_retries

/-- Drive an always-failing scrape_series task through Celery's retry
mechanism: execute, and while the retry decision allows, re-enqueue and
execute again.  fuel bounds the recursion; any fuel of at least
celery_max_retries + 1 lets the loop run to permanent failure. -/
def run_always_failing : Nat → Nat → JobRecord → JobRecord
  | 0, _, j => j
  | fuel + 1, r, j =>
      let j2 := failing_execution j "boom" r
      if celery_reenqueues r then run_always_failing fuel (r + 1) j2 else j2

/-! ## Transaction scope of scrape_series (workers/tasks.py)

The SQLAlchemy session is modelled as the list of committed mutations plus
the list of pending (uncommitted) mutations of the current transaction. -/

/-- One database mutation issued by the scrape_series unit of work. -/
inductive Mut where
  | jobRunning | seriesRow | chapterRow (i : Nat) | seriesStats
  | jobCompleted | jobFailed
deriving DecidableEq, Repr

/-- A database session: committed mutations, pending mutations of the open
transaction, and whether the session has been closed. -/
structure Session where
  committed : List Mut
  pending : List Mut
  closed : Bool
deriving DecidableEq, Repr

/-- Add a pending mutation to the session (db.add / attribute assignment). -/
def Session.addMut (s : Session) (m : Mut) : Session :=
  { s with pending := s.pending ++ [m] }

/-- db.commit: everything pending becomes committed. -/
def Session.commitTxn (s : Session) : Session :=
  { s with committed := s.committed ++ s.pending, pending := [] }

/-- db.rollback: pending mutations are discarded. -/
def Session.rollbackTxn (s : Session) : Session :=
  { s with pending := [] }

/-- db.close: the session is released; an open transaction is discarded. -/
def Session.closeTxn (s : Session) : Session :=
  { s with pending := [], closed := true }

/-- The commit/rollback skeleton of scrape_series.  hasJob is whether a job
row is attached (job_id was given and found); nChapters is how many chapter
rows the scraped data yields; failAfter none is the no-exception run, and
failAfter (some k) is a run whose exception is raised after k chapter rows
were added to the session.  Returns the final session and whether the task
re-raised.  The control flow follows the source: the running-status update
is committed first; the series row, chapter rows and series stats are
committed together on success; on exception the handler records the job
failure and commits, then calls rollback, and the finally block closes the
session. -/
def scrape_series_txn (hasJob : Bool) (nChapters : Nat) (failAfter : Option Nat) :
    Session × Bool :=
  let s0 : Session := { committed := [], pending := [], closed := false }
  let s1 := if hasJob then (s0.addMut Mut.jobRunning).commitTxn else s0
  match failAfter with
  | none =>
      let s2 := s1.addMut Mut.seriesRow
      let s3 := (List.range nChapters).foldl (fun s i => s.addMut (Mut.chapterRow i)) s2
      let s4 := (s3.addMut Mut.seriesStats).commitTxn
      let s5 := if hasJob then (s4.addMut Mut.jobCompleted).commitTxn else s4
      (s5.closeTxn, false)
  | some k =>
      let s2 := s1.addMut Mut.seriesRow
      let s3 := (List.range (min k nChapters)).foldl
        (fun s i => s.addMut (Mut.chapterRow i)) s2
      let s4 := if hasJob then (s3.addMut Mut.jobFailed).commitTxn else s3
      let s5 := s4.rollbackTxn
      (s5.closeTxn, true)

/-! ## Browser pool (scrapers/browser_pool.py)

A BrowserInstance carries the timestamps and counters of the dataclass; the
opaque browser/page handles are irrelevant to the pool discipline and
omitted.  Times are seconds. -/

/-- The pool-visible state of one browser instance. -/
structure BrowserInstance where
  created_at : Nat
  request_count : Nat
  last_used : Nat
  is_busy : Bool
deriving DecidableEq, Repr

/-- BrowserPool.MAX_REQUESTS_PER_BROWSER. -/
def MAX_REQUESTS_PER_BROWSER : Nat := 50

/-- BrowserPool.MAX_BROWSER_AGE_SECONDS. -/
def MAX_BROWSER_AGE_SECONDS : Nat := 1800

/-- BrowserInstance.age_seconds at the given current time. -/
def BrowserInstance.age_seconds (b : BrowserInstance) (now : Nat) : Nat :=
  now - b.created_at

/-- The retirement predicate of BrowserPool.get_instance: request_count at
least MAX_REQUESTS_PER_BROWSER, or age at least MAX_BROWSER_AGE_SECONDS. -/
def needs_replacement (now : Nat) (b : BrowserInstance) : Bool :=
  decide (MAX_REQUESTS_PER_BROWSER ≤ b.request_count) ||
  decide (MAX_BROWSER_AGE_SECONDS ≤ b.age_seconds now)

/-- The pool: tracked instances and the configured maximum size. -/
structure BrowserPool where
  instances : List BrowserInstance
  pool_size : Nat
deriving DecidableEq, Repr

/-- BrowserPool.active_count: number of tracked instances. -/
def active_count (p : BrowserPool) : Nat := p.instances.length

/-- BrowserPool.busy_count: number of tracked instances marked busy. -/
def busy_count (p : BrowserPool) : Nat :=
  (p.instances.filter (fun b => b.is_busy)).length

/-- The scan loop of BrowserPool.get_instance over the instance list, with
Python iterator semantics: acc is the already-visited front of the list.  A
busy instance is passed over; a retired instance is destroyed and removed
from the list, and the element that slides into its position is skipped by
the iterator (moved to acc unexamined); the first idle healthy instance is
marked busy and returned together with the updated list.  Returns the found
instance (if any) and the list as left by the scan. -/
def scan_loop (now : Nat) (acc : List BrowserInstance) :
    List BrowserInstance → Option BrowserInstance × List BrowserInstance
  | [] => (none, acc)
  | [b] =>
      if b.is_busy then (none, acc ++ [b])
      else if needs_replacement now b then (none, acc)
      else (some { b with is_busy := true }, acc ++ [{ b with is_busy := true }])
  | b :: c :: rest2 =>
      if b.is_busy then scan_loop now (acc ++ [b]) (c :: rest2)
      else if needs_replacement now b then scan_loop now (acc ++ [c]) rest2
      else
        (some { b with is_busy := true },
         acc ++ ({ b with is_busy := true } :: c :: rest2))

/-- Outcome of one pass of BrowserPool.get_instance. -/
inductive AcquireStep where
  | acquired (b : BrowserInstance) (p : BrowserPool)
  | waited (p : BrowserPool)
deriving Repr

/-- One pass of BrowserPool.get_instance: scan for an idle healthy instance,
retiring stale ones along the way; if none found and the pool is not full,
create a fresh busy instance and append it; otherwise sleep and retry
(modelled as the waited outcome carrying the post-scan pool). -/
def get_instance_step (now : Nat) (p : BrowserPool) : AcquireStep :=
  match scan_loop now [] p.instances with
  | (some b, l) => AcquireStep.acquired b { p with instances := l }
  | (none, l) =>
      if l.length < p.pool_size then
        let nb : BrowserInstance :=
          { created_at := now, request_count := 0, last_used := now, is_busy := true }
        AcquireStep.acquired nb { p with instances := l ++ [nb] }
      else AcquireStep.waited { p with instances := l }

/-- BrowserPool.release_instance on one instance: clear the busy flag,
increment request_count, update last_used. -/
def release_upd (now : Nat) (b : BrowserInstance) : BrowserInstance :=
  { b with is_busy := false, request_count := b.request_count + 1, last_used := now }

/-- BrowserPool.release_instance, addressed by position in the list. -/
def release_instance (p : BrowserPool) (i now : Nat) : BrowserPool :=
  match p.instances[i]? with
  | some b => { p with instances := p.instances.set i (release_upd now b) }
  | none => p

/-- BrowserPool.close: every tracked instance is destroyed and the list is
cleared. -/
def close_pool (p : BrowserPool) : BrowserPool :=
  { p with instances := [] }

/-- The pool invariant of the specification: busy count at most active
count, active count at most pool size. -/
abbrev PoolInv (p : BrowserPool) : Prop :=
  busy_count p ≤ active_count p ∧ active_count p ≤ p.pool_size

/-! ## Adapter registry (scrapers/init) and the no-adapter path -/

/-- The scraper classes of the registry. -/
inductive ScraperKind where
  | mgeko | asura | manhwatop
deriving DecidableEq, Repr

/-- SCRAPER_REGISTRY: static hostname-keyed adapter registry. -/
def SCRAPER_REGISTRY : List (String × ScraperKind) :=
  [("mgeko.cc", ScraperKind.mgeko), ("www.mgeko.cc", ScraperKind.mgeko),
   ("asuracomic.net", ScraperKind.asura), ("www.asuracomic.net", ScraperKind.asura),
   ("asura.nacm.xyz", ScraperKind.asura),
   ("manhwatop.com", ScraperKind.manhwatop), ("www.manhwatop.com", ScraperKind.manhwatop)]

/-- BROWSER_REQUIRED_DOMAINS: domains always fetched through the browser. -/
def BROWSER_REQUIRED_DOMAINS : List String :=
  ["asuracomic.net", "www.asuracomic.net", "asura.nacm.xyz",
   "manhwatop.com", "www.manhwatop.com"]

/-- A constructed scraper: its class and its requires_browser flag. -/
structure ScraperInstance where
  kind : ScraperKind
  requires_browser : Bool
deriving DecidableEq, Repr

/-- Embedding of get_scraper_for_url, taking the URL's parsed netloc (the
urlparse step is the standard library): lowercase the domain and look it up
in the static registry; unknown domains yield none. -/
def get_scraper_for_url (netloc : String) : Option ScraperInstance :=
  let domain := lower_chars netloc
  match SCRAPER_REGISTRY.find? (fun kv => decide (kv.1.toList = domain)) with
  | some kv =>
      some { kind := kv.2,
             requires_browser :=
               BROWSER_REQUIRED_DOMAINS.any (fun k => decide (k.toList = domain)) }
  | none => none

/-- Outcome of one dispatched execution of a task at the Celery level. -/
inductive TaskOutcome where
  | completed
  | reenqueued
  | permanentlyFailed
deriving DecidableEq, Repr

/-- The adapter-selection head of scrape_series and its exception handling,
for one execution with requestRetries prior retries.  If a scraper is
registered for the netloc the rest of the unit of work runs (given as the
withScraper continuation, out of scope here).  If none is registered, the
task raises ValueError immediately; the generic except handler records the
failure on the job and self.retry re-enqueues while the Celery budget
allows, else the task permanently fails.  The boolean records whether an
adapter was invoked. -/
def scrape_series_dispatch (netloc : String) (requestRetries : Nat) (j : JobRecord)
    (now : Nat) (withScraper : ScraperInstance → TaskOutcome × JobRecord) :
    TaskOutcome × JobRecord × Bool :=
  match get_scraper_for_url netloc with
  | some sc =>
      let r := withScraper sc
      (r.1, r.2, true)
  | none =>
      let j2 := failing_execution j "No scraper available for URL" now
      if celery_reenqueues requestRetries then (TaskOutcome.reenqueued, j2, false)
      else (TaskOutcome.permanentlyFailed, j2, false)

/-! ## Periodic cleanup (workers/tasks.py, cleanup_old_jobs) -/

/-- The slice of a job row read by cleanup_old_jobs. -/
structure JobRow where
  id : Nat
  status : JobSt
  completed_at : Option Nat
deriving DecidableEq, Repr

/-- The 7-day retention window, in seconds. -/
def RETENTION_SECONDS : Nat := 7 * 24 * 60 * 60

/-- The selection predicate of cleanup_old_jobs: status in
(completed, failed) and completed_at before now minus 7 days.  A null
completed_at never satisfies the SQL comparison. -/
def cleanup_selects (now : Nat) (j : JobRow) : Bool :=
  decide (j.status = JobSt.completed ∨ j.status = JobSt.failed) &&
  (match j.completed_at with
   | some t => decide (t < now - RETENTION_SECONDS)
   | none => false)

/-- Embedding of cleanup_old_jobs: delete every selected job, returning the
remaining jobs and the deleted count. -/
def cleanup_old_jobs (now : Nat) (jobs : List JobRow) : List JobRow × Nat :=
  ((jobs.filter (fun j => ! cleanup_selects now j)),
   (jobs.filter (cleanup_selects now)).length)

/-! ## Series merge (workers/tasks.py, scrape_series body)

Adapter output and the persisted rows are reduced to the fields the merge
reads or writes.  Chapter numbers are rationals (the model's float column
carries values such as 3.5). -/

/-- One chapter entry of the adapter's scrape_series output. -/
structure ChapterData where
  chapter_number : ℚ
  source_url : String
  title : Option String
deriving DecidableEq, Repr

/-- The adapter's scrape_series output. -/
structure SeriesData where
  source_site : String
  source_id : String
  title : String
  chapters : List ChapterData
deriving DecidableEq, Repr

/-- A persisted series row (the merge-relevant fields). -/
structure SeriesRow where
  id : Nat
  source_site : String
  source_id : String
  title : String
  total_chapters : Nat
  latest_chapter : Option ℚ
  last_checked_at : Option Nat
deriving DecidableEq, Repr

/-- A persisted chapter row (the merge-relevant fields). -/
structure ChapterRow where
  series_id : Nat
  chapter_number : ℚ
  source_url : String
  title : Option String
  is_scraped : Bool
deriving DecidableEq, Repr

/-- The store as the merge sees it: series rows, chapter rows, and the next
fresh series id the flush would assign. -/
structure Database where
  series : List SeriesRow
  chapters : List ChapterRow
  next_id : Nat
deriving DecidableEq, Repr

/-- The natural-key match of the series lookup:
(source_site, source_id). -/
def series_matches (d : SeriesData) (s : SeriesRow) : Bool :=
  decide (s.source_site = d.source_site ∧ s.source_id = d.source_id)

/-- The series row created when the lookup finds nothing, with the column
defaults of models/series.py for the fields absent from the adapter data. -/
def mk_series_row (nid : Nat) (d : SeriesData) : SeriesRow :=
  { id := nid, source_site := d.source_site, source_id := d.source_id,
    title := d.title, total_chapters := 0, latest_chapter := none,
    last_checked_at := none }

/-- The found-series branch: every non-null scalar field of the adapter data
overwrites the row (in this model all three scalar fields are present). -/
def overwrite_series (s : SeriesRow) (d : SeriesData) : SeriesRow :=
  { s with source_site := d.source_site, source_id := d.source_id, title := d.title }

/-- The series upsert over the series table: overwrite the first row whose
natural key matches, else append a fresh row with id nid.  Returns the new
table, the id of the matched or created row, and whether a row was
created. -/
def upsert_series_list (d : SeriesData) (nid : Nat) :
    List SeriesRow → List SeriesRow × Nat × Bool
  | [] => ([mk_series_row nid d], nid, true)
  | s :: ss =>
      if series_matches d s then (overwrite_series s d :: ss, s.id, false)
      else
        let r := upsert_series_list d nid ss
        (s :: r.1, r.2)

/-- max of the scraped chapter numbers, when any (the latest_chapter update
is guarded by the chapter list being non-empty). -/
def latest_of (cs : List ChapterData) : Option ℚ :=
  match cs.map (fun c => c.chapter_number) with
  | [] => none
  | x :: xs => some (xs.foldl max x)

/-- The end-of-merge stats update on the series row: stamp last_checked_at,
set total_chapters to the scraped chapter count, and set latest_chapter to
the scraped maximum when the scraped list is non-empty. -/
def stats_update (d : SeriesData) (now : Nat) (s : SeriesRow) : SeriesRow :=
  { s with last_checked_at := some now,
           total_chapters := d.chapters.length,
           latest_chapter := match latest_of d.chapters with
                             | some q => some q
                             | none => s.latest_chapter }

/-- Apply the stats update to the rows carrying the merged series' id. -/
def update_series_stats (rows : List SeriesRow) (sid : Nat) (d : SeriesData)
    (now : Nat) : List SeriesRow :=
  rows.map (fun s => if s.id = sid then stats_update d now s else s)

/-- Does the chapter table already hold the natural key
(series_id, chapter_number)? -/
def chapter_exists (chs : List ChapterRow) (sid : Nat) (n : ℚ) : Bool :=
  chs.any (fun c => decide (c.series_id = sid ∧ c.chapter_number = n))

/-- The chapter row created for a new chapter (is_scraped keeps its column
default false). -/
def new_chapter_row (sid : Nat) (c : ChapterData) : ChapterRow :=
  { series_id := sid, chapter_number := c.chapter_number,
    source_url := c.source_url, title := c.title, is_scraped := false }

/-- The chapter loop of scrape_series: for each scraped chapter, create a
row if the natural key is absent, else leave the existing row untouched.
Returns the new chapter table and the number of rows added. -/
def add_chapters (sid : Nat) : List ChapterRow → List ChapterData → List ChapterRow × Nat
  | chs, [] => (chs, 0)
  | chs, c :: cs =>
      if chapter_exists chs sid c.chapter_number then add_chapters sid chs cs
      else
        let r := add_chapters sid (chs ++ [new_chapter_row sid c]) cs
        (r.1, r.2 + 1)

/-- The database merge of one successful scrape_series run at time now:
upsert the series by natural key, upsert the chapters by
(series_id, chapter_number), then recompute the series stats.  Returns the
new database, the series id, and chapters_added. -/
def scrape_series_merge (db : Database) (d : SeriesData) (now : Nat) :
    Database × Nat × Nat :=
  ({ series := update_series_stats (upsert_series_list d db.next_id db.series).1
                 (upsert_series_list d db.next_id db.series).2.1 d now,
     chapters := (add_chapters (upsert_series_list d db.next_id db.series).2.1
                   db.chapters d.chapters).1,
     next_id := if (upsert_series_list d db.next_id db.series).2.2
                then db.next_id + 1 else db.next_id },
   (upsert_series_list d db.next_id db.series).2.1,
   (add_chapters (upsert_series_list d db.next_id db.series).2.1
     db.chapters d.chapters).2)

/-! ## Image download batch (workers/tasks.py, download_images) -/

/-- A persisted chapter image row (the download-relevant fields). -/
structure ImageRow where
  chapter_id : Nat
  page_number : Nat
  source_url : String
  is_downloaded : Bool
  storage_path : Option String
deriving DecidableEq, Repr

/-- The result of one successful ImageStorage.download_and_store call. -/
structure StoreResult where
  path : String
  url : String
deriving DecidableEq, Repr

/-- Ordered insertion by page_number (the ORDER BY of the image query). -/
def insert_by_page (img : ImageRow) : List ImageRow → List ImageRow
  | [] => [img]
  | x :: xs =>
      if img.page_number ≤ x.page_number then img :: x :: xs
      else x :: insert_by_page img xs

/-- Sort by page_number (the ORDER BY of the image query). -/
def order_by_page_number : List ImageRow → List ImageRow
  | [] => []
  | x :: xs => insert_by_page x (order_by_page_number xs)

/-- The per-image loop of download_images: each image's ingestion is
attempted; on success the row is marked downloaded and the counter grows; a
per-image failure is caught, logged and skipped, leaving the row as it was.
ingest gives the ingestion outcome per page number (none is a raised
per-image error). -/
def download_loop (ingest : Nat → Option StoreResult) :
    List ImageRow → List ImageRow × Nat
  | [] => ([], 0)
  | img :: rest =>
      match ingest img.page_number with
      | some res =>
          let r := download_loop ingest rest
          ({ img with is_downloaded := true, storage_path := some res.path } :: r.1,
           r.2 + 1)
      | none =>
          let r := download_loop ingest rest
          (img :: r.1, r.2)

/-- Embedding of download_images over a chapter's image rows: select the
not-yet-downloaded rows in page-number order and run the per-image loop.
Returns the processed rows and the downloaded count of the result
payload. -/
def download_images_task (ingest : Nat → Option StoreResult)
    (images : List ImageRow) : List ImageRow × Nat :=
  download_loop ingest
    (order_by_page_number (images.filter (fun i => ! i.is_downloaded)))

/-! ## Chapter scrape success path (workers/tasks.py, scrape_chapter) -/

/-- The chapter-row fields written by scrape_chapter. -/
structure ChapterScrapeState where
  is_scraped : Bool
  scraped_at : Option Nat
  total_images : Nat
deriving DecidableEq, Repr

/-- One image entry of the adapter's scrape_chapter output. -/
structure ImageData where
  page_number : Nat
  source_url : String
deriving DecidableEq, Repr

/-- A unit of work enqueued onto the task queue. -/
inductive Enqueued where
  | downloadImages (chapter_id : Nat)
deriving DecidableEq, Repr

/-- The success path of scrape_chapter after the adapter returned
images_data: upsert each image by (chapter_id, page_number) create-if-absent,
mark the chapter scraped with scraped_at stamped and total_images set to the
returned count, and enqueue the download unit of work for the same chapter.
Returns the chapter state, the image table, the enqueued tasks, and the
images_found count of the result payload. -/
def scrape_chapter_success (chapter_id : Nat) (dbImages : List ImageRow)
    (images_data : List ImageData) (now : Nat) :
    ChapterScrapeState × List ImageRow × List Enqueued × Nat :=
  let imgs := images_data.foldl (fun acc im =>
      if acc.any (fun r =>
          decide (r.chapter_id = chapter_id ∧ r.page_number = im.page_number))
      then acc
      else acc ++ [{ chapter_id := chapter_id, page_number := im.page_number,
                     source_url := im.source_url, is_downloaded := false,
                     storage_path := none }]) dbImages
  ({ is_scraped := true, scraped_at := some now, total_images := images_data.length },
   imgs, [Enqueued.downloadImages chapter_id], images_data.length)

/-! ## Concrete inputs used by witnesses -/

/-- A small pool used to witness the pool invariant theorem. -/
def wpool : BrowserPool :=
  { instances := [{ created_at := 0, request_count := 0, last_used := 0, is_busy := false }],
    pool_size := 2 }

/-- A concrete ingestion outcome map failing exactly on page 3. -/
def w_ingest : Nat → Option StoreResult :=
  fun p => if p = 3 then none else some { path := "p", url := "u" }

/-- Five not-yet-downloaded images of one chapter, pages 1 through 5. -/
def five_images : List ImageRow :=
  [{ chapter_id := 9, page_number := 1, source_url := "u1", is_downloaded := false, storage_path := none },
   { chapter_id := 9, page_number := 2, source_url := "u2", is_downloaded := false, storage_path := none },
   { chapter_id := 9, page_number := 3, source_url := "u3", is_downloaded := false, storage_path := none },
   { chapter_id := 9, page_number := 4, source_url := "u4", is_downloaded := false, storage_path := none },
   { chapter_id := 9, page_number := 5, source_url := "u5", is_downloaded := false, storage_path := none }]

/-- A continuation standing for the rest of the unit of work when an adapter
exists; used to witness the dispatch theorem. -/
def w_cont : ScraperInstance → TaskOutcome × JobRecord :=
  fun _ => (TaskOutcome.completed, newJob)

/-! ## Theorems -/

/-- C1: evaluation of the fetch strategy engine at the claim's scenario.  On
a non-browser-required site with force_browser false, when every direct HTTP
attempt returns status 503 with body containing "just a moment", fetch_page
does NOT invoke the browser fallback at all: the tenacity wrapper on
fetch_http (stop_after_attempt(3) without reraise) raises RetryError after
the third challenge, the except clause of fetch_page catches only
CloudflareBlockedError and HTTPStatusError, and the RetryError propagates.
The browser fetch count is 0 and the returned value is the error, not the
browser content — contradicting the claim (and the docstring of
fetch_page), which promise exactly one browser fallback returning its
content. -/
theorem C1_challenge_raises_retryerror_without_fallback :
    fetch_page (fun _ => challenge503) "BROWSER-CONTENT" false false
      = (Except.error (FetchError.retryError FetchError.cloudflareBlocked), 0) := by
  rfl

/-- C2 counterexample: the claim says a failing execution with
retry_count < max_retries leaves the job effectively pending/retry, not
failed, and that a job failing max_retries times in a row ends with
retry_count = max_retries.  On the code, the first failing execution already
sets status failed while retry_count = 1 < max_retries = 3; and driving an
always-failing task through Celery's retry loop gives four failing
executions (request.retries 0 through 3), ending failed with
retry_count = 4, not 3. -/
theorem C2_failed_status_while_retries_remain :
    ((failing_execution newJob "boom" 0).retry_count
        < (failing_execution newJob "boom" 0).max_retries
     ∧ (failing_execution newJob "boom" 0).status = JobSt.failed
     ∧ (failing_execution newJob "boom" 0).status ≠ JobSt.pending
     ∧ (failing_execution newJob "boom" 0).status ≠ JobSt.retry)
    ∧ (run_always_failing 4 0 newJob).status = JobSt.failed
    ∧ (run_always_failing 4 0 newJob).retry_count = 4
    ∧ newJob.max_retries = 3 := by
  decide

/-- C2 amended: on every exception the job records error_message and
error_traceback and increments retry_count, but its status is set to failed
even while retries remain; the task is re-enqueued through Celery's own
retry mechanism exactly while the request's prior-retry count is below the
task's Celery budget of 3 (re-execution then sets the job back to running);
an always-failing job therefore ends failed with
retry_count = max_retries + 1 = 4 after four failing executions. -/
theorem C2_amended_retry_semantics (j : JobRecord) (msg : String) (now : Nat) :
    (failing_execution j msg now).status = JobSt.failed
    ∧ (failing_execution j msg now).error_message = some msg
    ∧ (failing_execution j msg now).error_traceback = true
    ∧ (failing_execution j msg now).retry_count = j.retry_count + 1
    ∧ (∀ r : Nat, celery_reenqueues r = decide (r < celery_max_retries))
    ∧ (run_always_failing (celery_max_retries + 1) 0 newJob).status = JobSt.failed
    ∧ (run_always_failing (celery_max_retries + 1) 0 newJob).retry_count
        = newJob.max_retries + 1 := by
  refine ⟨rfl, rfl, rfl, rfl, ?_, by decide, by decide⟩
  intro r
  unfold celery_reenqueues
  rw [decide_eq_decide]
  exact Nat.add_one_le_iff

/-- C4: evaluation of the scrape_series transaction skeleton at a failing
run with an attached job, where the exception strikes after 2 of 5 chapter
rows were added to the session.  The except handler's commit (which records
the job failure) also commits the pending series row and the 2 partial
chapter rows; the rollback that follows clears nothing, contradicting the
claim that mutations of a failing unit are rolled back and commits happen
only on the success path.  The session is still closed on this exit path and
the exception is re-raised. -/
theorem C4_error_path_commits_pending_writes :
    ((scrape_series_txn true 5 (some 2)).1.committed
       = [Mut.jobRunning, Mut.seriesRow, Mut.chapterRow 0, Mut.chapterRow 1,
          Mut.jobFailed])
    ∧ Mut.seriesRow ∈ (scrape_series_txn true 5 (some 2)).1.committed
    ∧ Mut.chapterRow 1 ∈ (scrape_series_txn true 5 (some 2)).1.committed
    ∧ (scrape_series_txn true 5 (some 2)).1.closed = true
    ∧ (scrape_series_txn true 5 (some 2)).2 = true := by
  decide

/-- C7 counterexample: the claim says the no-adapter error is not retried.
For the unregistered host example.com, the first execution of scrape_series
raises the no-scraper error, the generic except handler catches it, and
self.retry re-enqueues the task — outcome reenqueued, contradicting the
claim. -/
theorem C7_unknown_host_is_reenqueued :
    get_scraper_for_url "example.com" = none
    ∧ (scrape_series_dispatch "example.com" 0 newJob 0 w_cont).1
        = TaskOutcome.reenqueued := by
  exact ⟨rfl, rfl⟩

/-- C7 amended: for every netloc with no registry entry, the unit of work
rejects the request immediately — no adapter is invoked, the job is marked
failed with the no-scraper error message and an incremented retry_count —
but the error goes through the generic retry path like any other exception:
the task is re-enqueued while the request's prior-retry count is below
Celery's budget of 3, and only then fails permanently. -/
theorem C7_amended_no_adapter_still_retried (netloc : String) (r now : Nat)
    (j : JobRecord) (cont : ScraperInstance → TaskOutcome × JobRecord)
    (h : get_scraper_for_url netloc = none) :
    (scrape_series_dispatch netloc r j now cont).2.2 = false
    ∧ (scrape_series_dispatch netloc r j now cont).2.1.status = JobSt.failed
    ∧ (scrape_series_dispatch netloc r j now cont).2.1.error_message
        = some "No scraper available for URL"
    ∧ (scrape_series_dispatch netloc r j now cont).2.1.retry_count
        = j.retry_count + 1
    ∧ (scrape_series_dispatch netloc r j now cont).1
        = (if r < celery_max_retries then TaskOutcome.reenqueued
           else TaskOutcome.permanentlyFailed) := by
  have hiff : celery_reenqueues r = decide (r < celery_max_retries) := by
    unfold celery_reenqueues
    rw [decide_eq_decide]
    exact Nat.add_one_le_iff
  by_cases hr : r < celery_max_retries
  · simp [scrape_series_dispatch, h, hiff, hr, failing_execution]
  · simp [scrape_series_dispatch, h, hiff, hr, failing_execution]

/-- Witness for the C7 amended theorem at the concrete unregistered host
example.com with a fresh job and zero prior retries. -/
theorem C7_amended_no_adapter_still_retried_witness :
    (scrape_series_dispatch "example.com" 0 newJob 0 w_cont).2.2 = false
    ∧ (scrape_series_dispatch "example.com" 0 newJob 0 w_cont).2.1.status = JobSt.failed
    ∧ (scrape_series_dispatch "example.com" 0 newJob 0 w_cont).2.1.error_message
        = some "No scraper available for URL"
    ∧ (scrape_series_dispatch "example.com" 0 newJob 0 w_cont).2.1.retry_count
        = newJob.retry_count + 1
    ∧ (scrape_series_dispatch "example.com" 0 newJob 0 w_cont).1
        = (if 0 < celery_max_retries then TaskOutcome.reenqueued
           else TaskOutcome.permanentlyFailed) :=
  C7_amended_no_adapter_still_retried "example.com" 0 0 newJob w_cont rfl

/-- C8 counterexample: the claim says every terminal job (completed, failed
or cancelled) older than the retention window is purged.  A cancelled job
whose completed_at is far older than 7 days survives cleanup_old_jobs
untouched (the query filters on completed and failed only), and the deleted
count is 0. -/
theorem C8_cancelled_job_survives_cleanup :
    cleanup_old_jobs (10 * RETENTION_SECONDS)
        [{ id := 1, status := JobSt.cancelled, completed_at := some 0 }]
      = ([{ id := 1, status := JobSt.cancelled, completed_at := some 0 }], 0) := by
  decide

/-- C8 amended: cleanup_old_jobs purges exactly the jobs whose status is
completed or failed and whose completed_at is set and older than the 7-day
retention window; cancelled jobs, and jobs with no completed_at, are never
deleted, and no job outside the selected set is deleted. -/
theorem C8_amended_cleanup_exact_set (now : Nat) (jobs : List JobRow) (j : JobRow) :
    j ∈ (cleanup_old_jobs now jobs).1
      ↔ j ∈ jobs ∧
          ¬((j.status = JobSt.completed ∨ j.status = JobSt.failed)
            ∧ ∃ t, j.completed_at = some t ∧ t < now - RETENTION_SECONDS) := by
  have hrepr : (cleanup_old_jobs now jobs).1
      = jobs.filter (fun x => ! cleanup_selects now x) := rfl
  rw [hrepr, List.mem_filter]
  apply and_congr_right
  intro _
  cases hj : j.completed_at with
  | none => simp [cleanup_selects, hj]
  | some t =>
      simp only [cleanup_selects, hj, Bool.not_eq_true', Bool.and_eq_false_iff,
        decide_eq_false_iff_not, not_or, not_lt, Option.some.injEq]
      constructor
      · rintro (⟨hna, hnb⟩ | hle)
        · rintro ⟨hab, t', ht', _⟩
          rcases hab with h1 | h1
          · exact hna h1
          · exact hnb h1
        · rintro ⟨_, t', ht', hlt⟩
          cases ht'
          omega
      · intro hnot
        by_cases hab : j.status = JobSt.completed ∨ j.status = JobSt.failed
        · right
          by_contra hc
          exact hnot ⟨hab, t, rfl, by omega⟩
        · left
          exact not_or.mp hab

/-- Counting lemma for the rate limiter: starting from a live counter with
value c expiring at t0 + 60, a sequence of calls all made before the expiry
is allowed exactly while the counter value stays below the limit. -/
theorem runAllow_from_counter (limit t0 : Nat) :
    ∀ (ts : List Nat) (c : Nat), (∀ t ∈ ts, t < t0 + 60) →
      (runAllow limit ⟨some (c, t0 + 60)⟩ ts).1
        = (List.range ts.length).map (fun i => decide (c + i < limit)) := by
  intro ts
  induction ts with
  | nil => intro c _; rfl
  | cons t ts ih =>
      intro c h
      have ht : t < t0 + 60 := h t (by simp)
      have hts : ∀ u ∈ ts, u < t0 + 60 := fun u hu => h u (by simp [hu])
      have hexp : ¬ (t0 + 60 ≤ t) := by omega
      by_cases hc : limit ≤ c
      · have hstep : check_rate_limit ⟨some (c, t0 + 60)⟩ t limit 60
            = (false, ⟨some (c, t0 + 60)⟩) := by
          simp [check_rate_limit, hexp, hc]
        have htail := ih c hts
        simp only [runAllow, hstep, htail, List.length_cons,
          List.range_succ_eq_map, List.map_cons, List.map_map]
        congr 1
        · rw [eq_comm, decide_eq_false_iff_not]
          omega
        · apply List.map_congr_left
          intro i _
          simp only [Function.comp_apply]
          rw [decide_eq_decide]
          omega
      · have hcl : c < limit := by omega
        have hstep : check_rate_limit ⟨some (c, t0 + 60)⟩ t limit 60
            = (true, ⟨some (c + 1, t0 + 60)⟩) := by
          simp [check_rate_limit, hexp, hc]
        have htail := ih (c + 1) hts
        simp only [runAllow, hstep, htail, List.length_cons,
          List.range_succ_eq_map, List.map_cons, List.map_map]
        congr 1
        · rw [eq_comm, decide_eq_true_eq]
          omega
        · apply List.map_congr_left
          intro i _
          simp only [Function.comp_apply]
          rw [decide_eq_decide]
          omega

/-- C3: for every key and positive limit, a sequence of allow calls within
one 60-second window is allowed for exactly the first limit calls and denied
for every call thereafter; the first call initializes the counter to 1 with
a 60-second expiry, and any call at or after the expiry re-initializes the
window (counter back to 1, fresh 60-second expiry) and is allowed. -/
theorem C3_rate_limit_window (limit t0 : Nat) (ts : List Nat)
    (hlim : 0 < limit) (hts : ∀ t ∈ ts, t < t0 + 60) :
    ((runAllow limit ⟨none⟩ (t0 :: ts)).1
       = (List.range (ts.length + 1)).map (fun i => decide (i < limit)))
    ∧ ((check_rate_limit ⟨none⟩ t0 limit 60).2 = ⟨some (1, t0 + 60)⟩)
    ∧ (∀ c exp t, exp ≤ t →
        check_rate_limit ⟨some (c, exp)⟩ t limit 60 = (true, ⟨some (1, t + 60)⟩)) := by
  refine ⟨?_, rfl, ?_⟩
  · have hstep : check_rate_limit ⟨none⟩ t0 limit 60
        = (true, ⟨some (1, t0 + 60)⟩) := rfl
    have htail := runAllow_from_counter limit t0 ts 1 hts
    simp only [runAllow, hstep, htail, List.range_succ_eq_map, List.map_cons,
      List.map_map]
    congr 1
    · rw [eq_comm, decide_eq_true_eq]
      omega
    · apply List.map_congr_left
      intro i _
      simp only [Function.comp_apply]
      rw [decide_eq_decide]
      omega
  · intro c exp t hle
    simp [check_rate_limit, hle]

/-- Witness for C3 at limit 2 with four calls inside one window starting at
time 5: the first two calls are allowed, the remaining two denied. -/
theorem C3_rate_limit_window_witness :
    (0 : Nat) < 2 ∧ (∀ t ∈ [10, 20, 30], t < 5 + 60) ∧
    (((runAllow 2 ⟨none⟩ (5 :: [10, 20, 30])).1
       = (List.range ([10, 20, 30].length + 1)).map (fun i => decide (i < 2)))
     ∧ ((check_rate_limit ⟨none⟩ 5 2 60).2 = ⟨some (1, 5 + 60)⟩)
     ∧ (∀ c exp t, exp ≤ t →
         check_rate_limit ⟨some (c, exp)⟩ t 2 60 = (true, ⟨some (1, t + 60)⟩))) :=
  ⟨by decide, by decide, C3_rate_limit_window 2 5 [10, 20, 30] (by decide) (by decide)⟩

/-- Busy instances are a sublist of all instances, so busy_count never
exceeds active_count, for any pool state. -/
theorem busy_le_active (p : BrowserPool) : busy_count p ≤ active_count p :=
  List.length_filter_le _ _

/-- The scan loop of get_instance never grows the instance list: its
resulting list is no longer than the visited prefix plus the remaining
suffix (retirement only removes). -/
theorem scan_loop_length (now : Nat) :
    ∀ (n : Nat) (l : List BrowserInstance), l.length ≤ n →
      ∀ acc, (scan_loop now acc l).2.length ≤ acc.length + l.length := by
  intro n
  induction n with
  | zero =>
      intro l hl acc
      have hnil : l = [] := List.length_eq_zero.mp (Nat.le_zero.mp hl)
      subst hnil
      simp [scan_loop]
  | succ n ih =>
      intro l hl acc
      match l with
      | [] => simp [scan_loop]
      | [b] =>
          by_cases hb : b.is_busy
          · simp [scan_loop, hb]
          · by_cases hr : needs_replacement now b
            · simp [scan_loop, hb, hr]
            · simp [scan_loop, hb, hr]
      | b :: c :: rest2 =>
          simp only [List.length_cons] at hl
          by_cases hb : b.is_busy
          · have h2 := ih (c :: rest2) (by simp only [List.length_cons]; omega)
              (acc ++ [b])
            simp only [List.length_append, List.length_singleton,
              List.length_cons, List.length_nil] at h2
            simp [scan_loop, hb]
            omega
          · by_cases hr : needs_replacement now b
            · have h2 := ih rest2 (by omega) (acc ++ [c])
              simp only [List.length_append, List.length_singleton,
                List.length_cons, List.length_nil] at h2
              simp [scan_loop, hb, hr]
              omega
            · simp [scan_loop, hb, hr]

/-- An instance returned by the scan loop passed the retirement check: its
request counter is below MAX_REQUESTS_PER_BROWSER, its age is below
MAX_BROWSER_AGE_SECONDS, and it is marked busy. -/
theorem scan_loop_found (now : Nat) :
    ∀ (n : Nat) (l : List BrowserInstance), l.length ≤ n →
      ∀ acc b l2, scan_loop now acc l = (some b, l2) →
        b.request_count < MAX_REQUESTS_PER_BROWSER
        ∧ b.age_seconds now < MAX_BROWSER_AGE_SECONDS
        ∧ b.is_busy = true := by
  intro n
  induction n with
  | zero =>
      intro l hl acc b l2 hfind
      have hnil : l = [] := List.length_eq_zero.mp (Nat.le_zero.mp hl)
      subst hnil
      simp [scan_loop] at hfind
  | succ n ih =>
      intro l hl acc b l2 hfind
      match l with
      | [] => simp [scan_loop] at hfind
      | [b0] =>
          by_cases hb : b0.is_busy
          · rw [scan_loop, if_pos hb] at hfind
            simp at hfind
          · by_cases hr : needs_replacement now b0
            · rw [scan_loop, if_neg hb, if_pos hr] at hfind
              simp at hfind
            · rw [scan_loop, if_neg hb, if_neg hr] at hfind
              injection hfind with h1 h2
              injection h1 with h1
              subst h1
              simp only [needs_replacement, Bool.or_eq_true, decide_eq_true_eq,
                not_or, not_le] at hr
              exact ⟨hr.1, hr.2, rfl⟩
      | b0 :: c :: rest2 =>
          simp only [List.length_cons] at hl
          by_cases hb : b0.is_busy
          · rw [scan_loop, if_pos hb] at hfind
            exact ih (c :: rest2) (by simp only [List.length_cons]; omega)
              (acc ++ [b0]) b l2 hfind
          · by_cases hr : needs_replacement now b0
            · rw [scan_loop, if_neg hb, if_pos hr] at hfind
              exact ih rest2 (by omega) (acc ++ [c]) b l2 hfind
            · rw [scan_loop, if_neg hb, if_neg hr] at hfind
              injection hfind with h1 h2
              injection h1 with h1
              subst h1
              simp only [needs_replacement, Bool.or_eq_true, decide_eq_true_eq,
                not_or, not_le] at hr
              exact ⟨hr.1, hr.2, rfl⟩

/-- C5: the browser pool preserves busyCount at most activeCount at most
poolSize across every acquire pass (whether it finds, creates, or waits),
every release, and close; and an acquire pass never hands out an instance
with request_count at least 50 or age at least 1800 seconds — such
instances are retired (removed) during the scan, and a created instance is
fresh. -/
theorem C5_pool_invariants (now : Nat) (p : BrowserPool) (hp : PoolInv p) :
    (∀ b q, get_instance_step now p = AcquireStep.acquired b q →
        PoolInv q ∧ q.pool_size = p.pool_size
        ∧ b.request_count < MAX_REQUESTS_PER_BROWSER
        ∧ b.age_seconds now < MAX_BROWSER_AGE_SECONDS
        ∧ b.is_busy = true)
    ∧ (∀ q, get_instance_step now p = AcquireStep.waited q →
        PoolInv q ∧ q.pool_size = p.pool_size)
    ∧ (∀ i t, PoolInv (release_instance p i t)
        ∧ (release_instance p i t).pool_size = p.pool_size)
    ∧ PoolInv (close_pool p) := by
  obtain ⟨-, hsize⟩ := hp
  refine ⟨?_, ?_, ?_, ?_⟩
  · intro b q hq
    rcases hscan : scan_loop now [] p.instances with ⟨ob, l⟩
    have hlen : l.length ≤ p.instances.length := by
      have h0 := scan_loop_length now p.instances.length p.instances le_rfl []
      rw [hscan] at h0
      simpa using h0
    cases ob with
    | some b0 =>
        have hstep : get_instance_step now p
            = AcquireStep.acquired b0 { p with instances := l } := by
          unfold get_instance_step
          rw [hscan]
        rw [hstep] at hq
        injection hq with h1 h2
        subst h1
        subst h2
        refine ⟨⟨busy_le_active _, ?_⟩, rfl, ?_⟩
        · simpa [active_count] using le_trans hlen hsize
        · exact scan_loop_found now p.instances.length p.instances le_rfl
            [] b0 l hscan
    | none =>
        have hstep : get_instance_step now p
            = (if l.length < p.pool_size then
                 AcquireStep.acquired
                   { created_at := now, request_count := 0, last_used := now,
                     is_busy := true }
                   { p with instances := l ++
                       [{ created_at := now, request_count := 0, last_used := now,
                          is_busy := true }] }
               else AcquireStep.waited { p with instances := l }) := by
          unfold get_instance_step
          rw [hscan]
        rw [hstep] at hq
        by_cases hfull : l.length < p.pool_size
        · rw [if_pos hfull] at hq
          injection hq with h1 h2
          subst h1
          subst h2
          refine ⟨⟨busy_le_active _, ?_⟩, rfl, ?_, ?_, rfl⟩
          · simp only [active_count, List.length_append, List.length_singleton]
            omega
          · show (0 : Nat) < MAX_REQUESTS_PER_BROWSER
            decide
          · show now - now < MAX_BROWSER_AGE_SECONDS
            simp only [MAX_BROWSER_AGE_SECONDS]
            omega
        · rw [if_neg hfull] at hq
          cases hq
  · intro q hq
    rcases hscan : scan_loop now [] p.instances with ⟨ob, l⟩
    have hlen : l.length ≤ p.instances.length := by
      have h0 := scan_loop_length now p.instances.length p.instances le_rfl []
      rw [hscan] at h0
      simpa using h0
    cases ob with
    | some b0 =>
        have hstep : get_instance_step now p
            = AcquireStep.acquired b0 { p with instances := l } := by
          unfold get_instance_step
          rw [hscan]
        rw [hstep] at hq
        cases hq
    | none =>
        have hstep : get_instance_step now p
            = (if l.length < p.pool_size then
                 AcquireStep.acquired
                   { created_at := now, request_count := 0, last_used := now,
                     is_busy := true }
                   { p with instances := l ++
                       [{ created_at := now, request_count := 0, last_used := now,
                          is_busy := true }] }
               else AcquireStep.waited { p with instances := l }) := by
          unfold get_instance_step
          rw [hscan]
        rw [hstep] at hq
        by_cases hfull : l.length < p.pool_size
        · rw [if_pos hfull] at hq
          cases hq
        · rw [if_neg hfull] at hq
          injection hq with h2
          subst h2
          refine ⟨⟨busy_le_active _, ?_⟩, rfl⟩
          simpa [active_count] using le_trans hlen hsize
  · intro i t
    unfold release_instance
    cases hget : p.instances[i]? with
    | none => exact ⟨⟨busy_le_active _, hsize⟩, rfl⟩
    | some b0 =>
        refine ⟨⟨busy_le_active _, ?_⟩, rfl⟩
        simpa [active_count] using hsize
  · exact ⟨busy_le_active _, by simp [close_pool, active_count]⟩

/-- Witness for C5 at a concrete pool of one idle fresh instance with pool
size 2, observed at time 7. -/
theorem C5_pool_invariants_witness :
    PoolInv wpool ∧
    ((∀ b q, get_instance_step 7 wpool = AcquireStep.acquired b q →
        PoolInv q ∧ q.pool_size = wpool.pool_size
        ∧ b.request_count < MAX_REQUESTS_PER_BROWSER
        ∧ b.age_seconds 7 < MAX_BROWSER_AGE_SECONDS
        ∧ b.is_busy = true)
     ∧ (∀ q, get_instance_step 7 wpool = AcquireStep.waited q →
        PoolInv q ∧ q.pool_size = wpool.pool_size)
     ∧ (∀ i t, PoolInv (release_instance wpool i t)
        ∧ (release_instance wpool i t).pool_size = wpool.pool_size)
     ∧ PoolInv (close_pool wpool)) :=
  ⟨by decide, C5_pool_invariants 7 wpool (by decide)⟩

/-- Overwriting a series row with adapter data it already carries is the
identity. -/
theorem overwrite_noop (d : SeriesData) (s : SeriesRow)
    (hm : series_matches d s = true) (ht : s.title = d.title) :
    overwrite_series s d = s := by
  simp only [series_matches, decide_eq_true_eq] at hm
  obtain ⟨h1, h2⟩ := hm
  cases s
  simp_all [overwrite_series]

/-- The stats update does not change a row's natural key match. -/
theorem series_matches_stats (d : SeriesData) (n1 : Nat) (s : SeriesRow) :
    series_matches d (stats_update d n1 s) = series_matches d s := rfl

/-- Running the series upsert again, on the table left by an upsert followed
by the stats update for the same adapter data, finds the same row, changes
nothing, and creates nothing. -/
theorem upsert_twice (d : SeriesData) (nid nid2 n1 : Nat) :
    ∀ rows : List SeriesRow,
      upsert_series_list d nid2
          (update_series_stats (upsert_series_list d nid rows).1
            (upsert_series_list d nid rows).2.1 d n1)
        = (update_series_stats (upsert_series_list d nid rows).1
            (upsert_series_list d nid rows).2.1 d n1,
           (upsert_series_list d nid rows).2.1, false) := by
  intro rows
  induction rows with
  | nil =>
      simp [upsert_series_list, update_series_stats, stats_update,
        mk_series_row, series_matches, overwrite_series]
  | cons s ss ih =>
      by_cases hm : series_matches d s
      · have hm2 : series_matches d (stats_update d n1 (overwrite_series s d)) = true := by
          simp [series_matches, stats_update, overwrite_series]
        have hno : overwrite_series (stats_update d n1 (overwrite_series s d)) d
            = stats_update d n1 (overwrite_series s d) :=
          overwrite_noop d _ hm2 rfl
        have hid : (overwrite_series s d).id = s.id := rfl
        simp only [upsert_series_list, hm, update_series_stats, List.map_cons,
          List.map_nil, hid, if_true, hm2, hno]
        simp [hm2, hno]
        rfl
      · have hmf : series_matches d s = false := by simpa using hm
        simp only [upsert_series_list, hmf, Bool.false_eq_true, if_false,
          update_series_stats, List.map_cons]
        have hcond : series_matches d
            (if s.id = (upsert_series_list d nid ss).2.1
             then stats_update d n1 s else s) = false := by
          split
          · rw [series_matches_stats]
            exact hmf
          · exact hmf
        simp only [update_series_stats, List.map_cons] at ih
        simp [upsert_series_list, hcond, ih]

/-- The chapter loop only appends: the resulting chapter table extends the
one it started from, so existing chapter rows are never modified. -/
theorem add_chapters_append (sid : Nat) :
    ∀ (cs : List ChapterData) (chs : List ChapterRow),
      ∃ t, (add_chapters sid chs cs).1 = chs ++ t := by
  intro cs
  induction cs with
  | nil => intro chs; exact ⟨[], by simp [add_chapters]⟩
  | cons c cs ih =>
      intro chs
      by_cases hex : chapter_exists chs sid c.chapter_number
      · obtain ⟨t, ht⟩ := ih chs
        exact ⟨t, by simp [add_chapters, hex, ht]⟩
      · obtain ⟨t, ht⟩ := ih (chs ++ [new_chapter_row sid c])
        refine ⟨[new_chapter_row sid c] ++ t, ?_⟩
        simp [add_chapters, hex, ht]

/-- A natural key present in a chapter table is present in any extension of
it. -/
theorem chapter_exists_mono (chs t : List ChapterRow) (sid : Nat) (n : ℚ)
    (h : chapter_exists chs sid n = true) :
    chapter_exists (chs ++ t) sid n = true := by
  simp only [chapter_exists, List.any_append, Bool.or_eq_true]
  left
  simpa [chapter_exists] using h

/-- After the chapter loop runs, every scraped chapter's natural key is
present in the resulting table. -/
theorem add_chapters_covers (sid : Nat) :
    ∀ (cs : List ChapterData) (chs : List ChapterRow), ∀ c ∈ cs,
      chapter_exists (add_chapters sid chs cs).1 sid c.chapter_number = true := by
  intro cs
  induction cs with
  | nil =>
      intro chs c hc
      simp at hc
  | cons c0 cs ih =>
      intro chs c hc
      by_cases hex : chapter_exists chs sid c0.chapter_number
      · have heq : (add_chapters sid chs (c0 :: cs)).1
            = (add_chapters sid chs cs).1 := by
          simp [add_chapters, hex]
        rw [heq]
        rcases List.mem_cons.mp hc with rfl | hmem
        · obtain ⟨t, ht⟩ := add_chapters_append sid cs chs
          rw [ht]
          exact chapter_exists_mono chs t sid c.chapter_number hex
        · exact ih chs c hmem
      · have heq : (add_chapters sid chs (c0 :: cs)).1
            = (add_chapters sid (chs ++ [new_chapter_row sid c0]) cs).1 := by
          simp [add_chapters, hex]
        rw [heq]
        rcases List.mem_cons.mp hc with rfl | hmem
        · obtain ⟨t, ht⟩ := add_chapters_append sid cs (chs ++ [new_chapter_row sid c])
          rw [ht]
          apply chapter_exists_mono
          simp [chapter_exists, new_chapter_row]
        · exact ih (chs ++ [new_chapter_row sid c0]) c hmem
      
/-- When every scraped chapter's natural key is already present, the chapter
loop adds nothing and leaves the table unchanged. -/
theorem add_chapters_noop (sid : Nat) :
    ∀ (cs : List ChapterData) (chs : List ChapterRow),
      (∀ c ∈ cs, chapter_exists chs sid c.chapter_number = true) →
      add_chapters sid chs cs = (chs, 0) := by
  intro cs
  induction cs with
  | nil => intro chs _; rfl
  | cons c cs ih =>
      intro chs h
      have hc := h c (List.mem_cons_self c cs)
      have hrest := ih chs (fun c' hc' => h c' (List.mem_cons_of_mem c hc'))
      simp [add_chapters, hc, hrest]

/-- Re-running the stats update for the same adapter data leaves every row's
total_chapters unchanged. -/
theorem stats_total_stable (d : SeriesData) (sid n1 n2 : Nat) :
    ∀ rows : List SeriesRow,
      (update_series_stats (update_series_stats rows sid d n1) sid d n2).map
          (fun s => s.total_chapters)
        = (update_series_stats rows sid d n1).map (fun s => s.total_chapters) := by
  intro rows
  induction rows with
  | nil => rfl
  | cons s ss ih =>
      simp only [update_series_stats, List.map_cons] at ih ⊢
      congr 1
      by_cases hsid : s.id = sid
      · simp [hsid, stats_update]
      · simp [hsid]

/-- C6: running the series merge twice with identical adapter output is
idempotent — the second run adds zero chapters, the chapter table and the
matched series id are unchanged, and every series row's total_chapters is
unchanged; moreover a merge only ever appends chapter rows (matched by
(series_id, chapter_number)), never overwriting existing ones. -/
theorem C6_merge_idempotent (db : Database) (d : SeriesData) (n1 n2 : Nat) :
    ((scrape_series_merge (scrape_series_merge db d n1).1 d n2).2.2 = 0)
    ∧ ((scrape_series_merge (scrape_series_merge db d n1).1 d n2).1.chapters
        = (scrape_series_merge db d n1).1.chapters)
    ∧ ((scrape_series_merge (scrape_series_merge db d n1).1 d n2).2.1
        = (scrape_series_merge db d n1).2.1)
    ∧ ((scrape_series_merge (scrape_series_merge db d n1).1 d n2).1.series.map
          (fun s => s.total_chapters)
        = (scrape_series_merge db d n1).1.series.map (fun s => s.total_chapters))
    ∧ (∃ t, (scrape_series_merge db d n1).1.chapters = db.chapters ++ t) := by
  have htwice := upsert_twice d db.next_id
      (if (upsert_series_list d db.next_id db.series).2.2 then db.next_id + 1
       else db.next_id) n1 db.series
  have hcov : ∀ c ∈ d.chapters,
      chapter_exists
          (add_chapters (upsert_series_list d db.next_id db.series).2.1
            db.chapters d.chapters).1
          (upsert_series_list d db.next_id db.series).2.1 c.chapter_number
        = true :=
    fun c hc =>
      add_chapters_covers (upsert_series_list d db.next_id db.series).2.1
        d.chapters db.chapters c hc
  have hnoop := add_chapters_noop (upsert_series_list d db.next_id db.series).2.1
      d.chapters
      (add_chapters (upsert_series_list d db.next_id db.series).2.1
        db.chapters d.chapters).1 hcov
  refine ⟨?_, ?_, ?_, ?_, ?_⟩
  · simp [scrape_series_merge, htwice, hnoop]
  · simp [scrape_series_merge, htwice, hnoop]
  · simp [scrape_series_merge, htwice]
  · simp only [scrape_series_merge, htwice]
    exact stats_total_stable d (upsert_series_list d db.next_id db.series).2.1
      n1 n2 (upsert_series_list d db.next_id db.series).1
  · exact add_chapters_append (upsert_series_list d db.next_id db.series).2.1
      d.chapters db.chapters

/-- C9: a download unit of work over five not-yet-downloaded images
processed in page-number order, where ingestion of page 3 fails, reports
downloaded = 4, leaves image 3 with is_downloaded false, marks the other
four downloaded, and completes normally (the per-image failure is caught
inside the loop and skipped, never aborting the batch). -/
theorem C9_per_image_failure_is_skipped (ingest : Nat → Option StoreResult)
    (h3 : ingest 3 = none)
    (h1 : (ingest 1).isSome = true) (h2 : (ingest 2).isSome = true)
    (h4 : (ingest 4).isSome = true) (h5 : (ingest 5).isSome = true) :
    ((download_images_task ingest five_images).2 = 4)
    ∧ (∀ img ∈ (download_images_task ingest five_images).1,
        img.page_number = 3 → img.is_downloaded = false)
    ∧ (∀ img ∈ (download_images_task ingest five_images).1,
        img.page_number ≠ 3 → img.is_downloaded = true) := by
  obtain ⟨r1, hr1⟩ := Option.isSome_iff_exists.mp h1
  obtain ⟨r2, hr2⟩ := Option.isSome_iff_exists.mp h2
  obtain ⟨r4, hr4⟩ := Option.isSome_iff_exists.mp h4
  obtain ⟨r5, hr5⟩ := Option.isSome_iff_exists.mp h5
  have hsort : order_by_page_number (five_images.filter (fun i => ! i.is_downloaded))
      = five_images := by rfl
  simp only [download_images_task, hsort]
  simp [five_images, download_loop, hr1, hr2, h3, hr4, hr5]

/-- Witness for C9 at the concrete ingestion map failing exactly on
page 3. -/
theorem C9_per_image_failure_is_skipped_witness :
    (w_ingest 3 = none) ∧ ((w_ingest 1).isSome = true)
    ∧ ((w_ingest 2).isSome = true) ∧ ((w_ingest 4).isSome = true)
    ∧ ((w_ingest 5).isSome = true)
    ∧ (((download_images_task w_ingest five_images).2 = 4)
       ∧ (∀ img ∈ (download_images_task w_ingest five_images).1,
           img.page_number = 3 → img.is_downloaded = false)
       ∧ (∀ img ∈ (download_images_task w_ingest five_images).1,
           img.page_number ≠ 3 → img.is_downloaded = true)) :=
  ⟨rfl, rfl, rfl, rfl, rfl,
   C9_per_image_failure_is_skipped w_ingest rfl rfl rfl rfl rfl⟩

/-- C10: every successful scrape_chapter execution, including one whose
adapter returned an empty image list, marks the chapter is_scraped, stamps
scraped_at with the current time, sets total_images to the (possibly zero)
number of returned images, and enqueues a download unit of work for the same
chapter. -/
theorem C10_chapter_success_marks_and_enqueues_download (chapter_id : Nat)
    (dbImages : List ImageRow) (images_data : List ImageData) (now : Nat) :
    ((scrape_chapter_success chapter_id dbImages images_data now).1.is_scraped = true)
    ∧ ((scrape_chapter_success chapter_id dbImages images_data now).1.scraped_at
        = some now)
    ∧ ((scrape_chapter_success chapter_id dbImages images_data now).1.total_images
        = images_data.length)
    ∧ ((scrape_chapter_success chapter_id dbImages images_data now).2.2.1
        = [Enqueued.downloadImages chapter_id]) :=
  ⟨rfl, rfl, rfl, rfl⟩

end MangaScraper
